import Mathlib

/-!
Verification of the air-quality geospatial analysis pipeline
(`air_quality_geospatial_analysis.py`).

The script builds a per-city metrics table (pm25, co2, tri_facilities)
from a fixed city list, an optional emissions CSV, an optional PM2.5
fallback CSV, a live HTTP fetch, and an optional facility/boundary
spatial join, then exports the table.

The shallow embedding below models pandas data frames as a list of
column names plus rows of cells, the HTTP fetch as a function of the
network outcome, and polygon boundaries as axis-aligned rational
rectangles (enough to distinguish strict interior from boundary, which
is what the "within" predicate of the spatial join is about).  Floats
are modelled as rationals; the NaN missing sentinel is `Option.none`
(respectively the `Cell.na` cell).  Fallible pandas operations return
`Except String`.
-/

namespace AirQuality

/-- Calendar date as produced by `pandas.to_datetime`; only the year
component is consumed downstream (`dt.year`). -/
structure CMDate where
  year : Int
  month : Nat
  day : Nat
deriving DecidableEq

/-- A data-frame cell.  `na` models NaN/NaT missing values.  A raw cell
that `pandas.to_datetime` can parse is represented as `dateVal`
(unparseable date cells are arbitrary `str`/`num`/`na` cells). -/
inductive Cell where
  | str (s : String)
  | num (q : ℚ)
  | intVal (n : Int)
  | dateVal (d : CMDate)
  | na
deriving DecidableEq

/-- A pandas DataFrame: ordered column names plus rows of cells
(well-formed frames have `r.length = cols.length` for every row). -/
structure Frame where
  cols : List String
  rows : List (List Cell)
deriving DecidableEq

/-- Index of a column label, first occurrence (pandas label lookup). -/
def colIdx (cols : List String) (c : String) : Option Nat :=
  cols.findIdx? (fun x => x = c)

/-- Cell of row `r` in column `c` (given the frame's column list). -/
def cellAt (cols : List String) (r : List Cell) (c : String) : Cell :=
  match colIdx cols c with
  | some i => r.getD i Cell.na
  | none => Cell.na

/-- The full column `c` of a frame, as a list of cells. -/
def getColCells (f : Frame) (c : String) : List Cell :=
  f.rows.map (fun r => cellAt f.cols r c)

/-- Models `df.rename(columns={key: new})` where `key` is the Python value
`emi_col` (possibly `None`).  pandas `rename` defaults to
`errors="ignore"`: a key that is not a column label (in particular
`None`) is silently ignored, so the operation is total. -/
def rename_columns (f : Frame) (key : Option String) (new : String) : Frame :=
  match key with
  | none => f
  | some k => { f with cols := f.cols.map (fun c => if c = k then new else c) }

/-- Models `df[c] = vals`: replace column `c` in place when it exists,
otherwise append it as a new last column. -/
def set_col (f : Frame) (c : String) (vals : List Cell) : Frame :=
  match colIdx f.cols c with
  | some i => { f with rows := (f.rows.zip vals).map (fun p => p.1.set i p.2) }
  | none => { cols := f.cols ++ [c], rows := (f.rows.zip vals).map (fun p => p.1 ++ [p.2]) }

/-- Models `df.dropna(subset=[c])`: keep rows whose `c` cell is not missing. -/
def dropna_subset (f : Frame) (c : String) : Frame :=
  { f with rows := f.rows.filter (fun r => !(cellAt f.cols r c = Cell.na : Bool)) }

/-- Models `df[names]` column projection; raises `KeyError` when a requested
label is absent from the frame. -/
def project (f : Frame) (names : List String) : Except String Frame :=
  if names.all (fun n => f.cols.contains n) then
    .ok { cols := names, rows := f.rows.map (fun r => names.map (fun n => cellAt f.cols r n)) }
  else .error "KeyError: not in index"

/-- Models `df.drop(columns=c)` (used only where `c` is present). -/
def drop_col (f : Frame) (c : String) : Frame :=
  match colIdx f.cols c with
  | some i => { cols := f.cols.eraseIdx i, rows := f.rows.map (fun r => r.eraseIdx i) }
  | none => f

/-- Models `df[c].fillna(v, inplace=True)`: raises `KeyError` when column `c`
is absent, otherwise replaces missing cells of that column by `v`. -/
def fillna_col (f : Frame) (c : String) (v : Cell) : Except String Frame :=
  match colIdx f.cols c with
  | some i =>
      .ok { f with rows := f.rows.map (fun r => if r.getD i Cell.na = Cell.na then r.set i v else r) }
  | none => .error ("KeyError: " ++ c)

/-- Python `str.lower` for ASCII column names (character-wise). -/
def str_lower (s : String) : String := String.mk (s.data.map Char.toLower)

/-- Python `str.upper` for ASCII column names (character-wise). -/
def str_upper (s : String) : String := String.mk (s.data.map Char.toUpper)

/-- Python `s.startswith(pre)` (character-wise prefix test). -/
def str_starts (s pre : String) : Bool := pre.data.isPrefixOf s.data

/-- The emissions-column heuristic of `_standardise_carbon_monitor`:
first column whose lowercased name starts with "emission" or equals
"value" or "co2" (`next(..., None)`). -/
def find_emi_col (cols : List String) : Option String :=
  cols.find? (fun c =>
    str_starts (str_lower c) "emission" || str_lower c = "value" || str_lower c = "co2")

/-- Models `pd.to_datetime(cell, errors="coerce")`: a parseable cell (modelled
as `dateVal`) yields its date, everything else coerces to NaT. -/
def pd_to_datetime : Cell → Option CMDate
  | Cell.dateVal d => some d
  | _ => none

/-- The parsed date column: each raw cell becomes `dateVal d` or NaT. -/
def parse_date_cell (x : Cell) : Cell :=
  match pd_to_datetime x with
  | some d => Cell.dateVal d
  | none => Cell.na

/-- Models `df["date"] = pd.to_datetime(df["date"], errors="coerce")`. -/
def parse_dates (f : Frame) : Frame :=
  set_col f "date" (f.rows.map (fun r => parse_date_cell (cellAt f.cols r "date")))

/-- Models `df["year"] = df["date"].dt.year`. -/
def add_year (f : Frame) : Frame :=
  set_col f "year"
    (f.rows.map (fun r =>
      match cellAt f.cols r "date" with
      | Cell.dateVal d => Cell.intVal d.year
      | _ => Cell.na))

/-- Models `_standardise_carbon_monitor` (the raw CSV already read into a
frame): locate the emissions column, rename it, parse the `date`
column (reading the `date` column raises `KeyError` when the label is
missing), drop rows with unparseable dates, derive `year`, and
project to the canonical columns. -/
def standardise_carbon_monitor (raw : Frame) : Except String Frame :=
  let df := rename_columns raw (find_emi_col raw.cols) "emissions"
  match colIdx df.cols "date" with
  | none => .error "KeyError: date"
  | some _ =>
    project (add_year (dropna_subset (parse_dates df) "date"))
      ["city", "date", "emissions", "year"]

/-- The canonical empty emissions frame used when the source file is
absent (`pd.DataFrame(columns=["city","date","emissions","year"])`). -/
def empty_cm_frame : Frame :=
  { cols := ["city", "date", "emissions", "year"], rows := [] }

/-- Loading step of `main` for Carbon Monitor data: run the normalizer
when the file exists, else use the empty canonical frame. -/
def load_cm (cmExists : Bool) (raw : Frame) : Except String Frame :=
  if cmExists then standardise_carbon_monitor raw else .ok empty_cm_frame

/-- One measurement object of the OpenAQ response; `value` is `none`
when the `"value"` key is absent (subscripting then raises). -/
structure Measurement where
  value : Option ℚ
deriving DecidableEq

/-- One location object; `measurements` is `none` when the key is
absent (`loc.get("measurements", [])` then defaults to `[]`). -/
structure Location where
  measurements : Option (List Measurement)
deriving DecidableEq

/-- Parsed JSON body; `results` is `none` when the key is absent
(`data.get("results", [])` then defaults to `[]`). -/
structure ApiBody where
  results : Option (List Location)
deriving DecidableEq

/-- An HTTP response: status code plus body; `json = none` models a
body that `r.json()` cannot parse (it raises). -/
structure ApiResponse where
  status : Nat
  json : Option ApiBody
deriving DecidableEq

/-- Outcome of `requests.get`: connection-level failure, timeout, or a
received response. -/
inductive NetResult where
  | fail
  | timeout
  | resp (r : ApiResponse)
deriving DecidableEq

/-- Models `r.raise_for_status()`: raises `HTTPError` for 4xx/5xx codes. -/
def raise_for_status (r : ApiResponse) : Except String Unit :=
  if 400 ≤ r.status then .error "HTTPError" else .ok ()

/-- Models `r.json()`: the parsed body, or a raised decode error. -/
def response_json (r : ApiResponse) : Except String ApiBody :=
  match r.json with
  | some b => .ok b
  | none => .error "JSONDecodeError"

/-- Models `[m["value"] for loc in data.get("results", []) for m in
loc.get("measurements", [])]`: flatten all measurements and subscript
each one, raising `KeyError` on a missing `"value"` key. -/
def extract_values (b : ApiBody) : Except String (List ℚ) :=
  ((b.results.getD []).flatMap (fun loc => loc.measurements.getD [])).mapM
    (fun m => match m.value with
      | some v => Except.ok v
      | none => Except.error "KeyError: value")

/-- Body of the `try` block of `get_pm25_latest`: any raised step makes
the whole attempt an error; a successful attempt yields `none` (NaN)
for zero values, else their arithmetic mean. -/
def get_pm25_attempt (net : NetResult) : Except String (Option ℚ) :=
  match net with
  | .fail => .error "ConnectionError"
  | .timeout => .error "Timeout"
  | .resp r => do
      let _ ← raise_for_status r
      let data ← response_json r
      let values ← extract_values data
      if values.isEmpty then pure none
      else pure (some (values.sum / values.length))

/-- Models `get_pm25_latest`: the attempt with the blanket
`except Exception: return float("nan")` applied; `none` is NaN. -/
def get_pm25_latest (net : NetResult) : Option ℚ :=
  match get_pm25_attempt net with
  | .ok v => v
  | .error _ => none

/-- Rows of the fallback frame whose `city` cell equals the given city
name (`pm_fb.loc[pm_fb.city == city]`); NaN compares unequal because
`Cell.na` differs from `Cell.str city`. -/
def fb_matching (fb : Frame) (city : String) : List (List Cell) :=
  fb.rows.filter (fun r => cellAt fb.cols r "city" = Cell.str city)

/-- A numeric cell as a rational; `na` (and non-numeric cells) give
`none`, i.e. stay the missing sentinel. -/
def cellToQ : Cell → Option ℚ
  | Cell.num q => some q
  | Cell.intVal n => some (n : ℚ)
  | _ => none

/-- Fallback lookup of `main`: `pm_fb.city` raises `AttributeError`
when the `city` column is absent; with no matching row the value is
left alone; otherwise `row.iloc[0].pm25` is read, raising
`AttributeError` when the `pm25` column is absent. -/
def fb_lookup (fb : Frame) (city : String) : Except String (Option Cell) :=
  match colIdx fb.cols "city" with
  | none => .error "AttributeError: city"
  | some i =>
    match fb.rows.filter (fun r => r.getD i Cell.na = Cell.str city) with
    | [] => .ok none
    | r :: _ =>
      match colIdx fb.cols "pm25" with
      | none => .error "AttributeError: pm25"
      | some j => .ok (some (r.getD j Cell.na))

/-- The fetch-then-fallback-then-missing chain of `main` (lines
101-105): a fetched value is kept; a missing fetch consults the
optional fallback table. -/
def resolve_pm25 (fetched : Option ℚ) (pm_fb : Option Frame) (city : String) :
    Except String (Option ℚ) :=
  match fetched, pm_fb with
  | none, some fb => do
      match ← fb_lookup fb city with
      | some c => .ok (cellToQ c)
      | none => .ok none
  | f, _ => .ok f

/-- Rows of the emissions frame matching a city and year
(`cm_df[(cm_df.city == city) & (cm_df.year == YEARS[0])]`). -/
def cm_matching (cm : Frame) (city : String) (yr : Int) : List (List Cell) :=
  cm.rows.filter (fun r =>
    (cellAt cm.cols r "city" = Cell.str city : Bool) &&
    (cellAt cm.cols r "year" = Cell.intVal yr : Bool))

/-- Models `co2_rows.emissions.mean() if not co2_rows.empty else nan`: pandas
`mean` skips NaN cells; a NaN-only (or empty) selection is NaN. -/
def co2_mean (cm : Frame) (city : String) (yr : Int) : Option ℚ :=
  let matching := cm_matching cm city yr
  if matching.isEmpty then none
  else
    let vals := matching.filterMap (fun r => cellToQ (cellAt cm.cols r "emissions"))
    if vals.isEmpty then none else some (vals.sum / vals.length)

/-- The configured analysis years (`YEARS = [2024]`). -/
def YEARS : List Int := [2024]

/-- The configured city list with coordinates. -/
def CITIES : List (String × ℚ × ℚ) :=
  [("New York", 40.7128, -74.0060),
   ("Los Angeles", 34.0522, -118.2437),
   ("Chicago", 41.8781, -87.6298),
   ("Houston", 29.7604, -95.3698),
   ("Phoenix", 33.4484, -112.0740),
   ("Philadelphia", 39.9526, -75.1652),
   ("Tampa", 27.9506, -82.4572)]

/-- One assembled metrics row before the spatial-join stage. -/
structure CityRow where
  city : String
  latitude : ℚ
  longitude : ℚ
  pm25 : Option ℚ
  co2 : Option ℚ
deriving DecidableEq

/-- One iteration of the per-city loop of `main`: fetch, fallback,
emissions mean. -/
def build_city_row (net : String → NetResult) (pm_fb : Option Frame) (cm : Frame)
    (c : String × ℚ × ℚ) : Except String CityRow := do
  let pm25 ← resolve_pm25 (get_pm25_latest (net c.1)) pm_fb c.1
  let co2 := co2_mean cm c.1 (YEARS.getD 0 0)
  .ok { city := c.1, latitude := c.2.1, longitude := c.2.2, pm25 := pm25, co2 := co2 }

/-- The whole per-city loop, in configured city order. -/
def build_rows (net : String → NetResult) (pm_fb : Option Frame) (cm : Frame) :
    Except String (List CityRow) :=
  CITIES.mapM (build_city_row net pm_fb cm)

/-- A missing numeric value rendered as a frame cell. -/
def optQCell : Option ℚ → Cell
  | some q => Cell.num q
  | none => Cell.na

/-- Models `metrics = pd.DataFrame(rows)`: the assembled metrics frame. -/
def metrics_frame (rows : List CityRow) : Frame :=
  { cols := ["city", "latitude", "longitude", "pm25", "co2"],
    rows := rows.map (fun r =>
      [Cell.str r.city, Cell.num r.latitude, Cell.num r.longitude,
       optQCell r.pm25, optQCell r.co2]) }

/-- Models `metrics["tri_facilities"] = 0` (line 111): pre-set default. -/
def add_tri_default (f : Frame) : Frame :=
  set_col f "tri_facilities" (f.rows.map (fun _ => Cell.intVal 0))

/-- A facility point (geometry column of the TRI GeoDataFrame). -/
structure FacPoint where
  x : ℚ
  y : ℚ
deriving DecidableEq

/-- A named place boundary; the polygon is modelled as an axis-aligned
rational rectangle, which suffices to distinguish the strict interior
from the boundary for the `within` predicate. -/
structure Place where
  name : String
  xmin : ℚ
  xmax : ℚ
  ymin : ℚ
  ymax : ℚ
deriving DecidableEq

/-- Shapely `within` for a point and a rectangle polygon: membership in
the strict interior (boundary points are not `within`). -/
def within (p : FacPoint) (pl : Place) : Bool :=
  (pl.xmin < p.x : Bool) && (p.x < pl.xmax : Bool) &&
  (pl.ymin < p.y : Bool) && (p.y < pl.ymax : Bool)

/-- A point lying on the boundary (edge) of the rectangle polygon:
inside the closure and on one of the four edges. -/
def on_boundary (p : FacPoint) (pl : Place) : Bool :=
  (pl.xmin ≤ p.x : Bool) && (p.x ≤ pl.xmax : Bool) &&
  (pl.ymin ≤ p.y : Bool) && (p.y ≤ pl.ymax : Bool) &&
  ((p.x = pl.xmin : Bool) || (p.x = pl.xmax : Bool) ||
   (p.y = pl.ymin : Bool) || (p.y = pl.ymax : Bool))

/-- Models `gpd.sjoin(tri_gdf, subset, how="inner", predicate="within")`
followed by reading off the joined `NAME` column: one entry per
(facility, containing polygon) pair, in left-frame-major order. -/
def sjoin_within (pts : List FacPoint) (places : List Place) : List String :=
  pts.flatMap (fun p => ((places.filter (fun pl => within p pl)).map (fun pl => pl.name)))

/-- Models `tri_in.groupby("NAME").size()`: occurrence count per name. -/
def group_size (names : List String) : List (String × Nat) :=
  names.dedup.map (fun n => (n, names.count n))

/-- The count for a name in the grouped result (0 when absent). -/
def lookup_count (cs : List (String × Nat)) (n : String) : Nat :=
  match cs.find? (fun c => c.1 = n) with
  | some c => c.2
  | none => 0

/-- Models `counts.rename("tri_facilities").reset_index()`: the counts frame
with columns `NAME` and `tri_facilities`. -/
def counts_frame (cs : List (String × Nat)) : Frame :=
  { cols := ["NAME", "tri_facilities"],
    rows := cs.map (fun c => [Cell.str c.1, Cell.intVal (c.2 : Int)]) }

/-- pandas key equality for a merge: NaN joins nothing, otherwise cell
equality. -/
def cell_key_eq : Cell → Cell → Bool
  | Cell.na, _ => false
  | _, Cell.na => false
  | a, b => a = b

/-- Suffix applied by `pd.merge` to a column name that both frames
share (and that is not a join key). -/
def merge_suffix (shared : List String) (sfx : String) (c : String) : String :=
  if shared.contains c then c ++ sfx else c

/-- Models `left.merge(right, left_on=lOn, right_on=rOn, how="left")`:
columns shared by both frames are suffixed `_x`/`_y`; every left row
appears once per matching right row, or once with NaN-padded right
cells when nothing matches. -/
def merge_left (L R : Frame) (lOn rOn : String) : Frame :=
  let shared := L.cols.filter (fun c => R.cols.contains c)
  { cols := L.cols.map (merge_suffix shared "_x") ++ R.cols.map (merge_suffix shared "_y"),
    rows := L.rows.flatMap (fun lr =>
      match R.rows.filter (fun rr => cell_key_eq (cellAt R.cols rr rOn) (cellAt L.cols lr lOn)) with
      | [] => [lr ++ R.cols.map (fun _ => Cell.na)]
      | ms => ms.map (fun rr => lr ++ rr)) }

/-- Models `_read_tri` applied to the outcome of `pd.read_csv` (error = the
read raised): resolve latitude/longitude columns by case-insensitive
prefix, drop rows with missing coordinates, build points from numeric
x/y (a non-numeric coordinate makes `points_from_xy` raise, which the
blanket `except` turns into `None`).  `none` means "no data". -/
def read_tri (res : Except String Frame) : Option (List FacPoint) :=
  match res with
  | .error _ => none
  | .ok df =>
    match df.cols.find? (fun c => str_starts (str_upper c) "LAT"),
          df.cols.find? (fun c => str_starts (str_upper c) "LON") with
    | some la, some lo =>
      (df.rows.filter (fun r =>
          !(cellAt df.cols r la = Cell.na : Bool) && !(cellAt df.cols r lo = Cell.na : Bool))).mapM
        (fun r =>
          match cellToQ (cellAt df.cols r lo), cellToQ (cellAt df.cols r la) with
          | some x, some y => some { x := x, y := y }
          | _, _ => none)
    | _, _ => none

/-- The spatial-join stage of `main` (lines 114-124): guarded by the
existence of both files; `_read_tri` failure skips the stage; the
boundary read (`gpd.read_file`), the join, the merge and the `fillna`
are not guarded, so their errors propagate. -/
def tri_stage (metrics : Frame) (triExists placeExists : Bool)
    (tri_read : Option (List FacPoint)) (place_read : Except String (List Place)) :
    Except String Frame :=
  if triExists && placeExists then
    match tri_read with
    | none => .ok metrics
    | some pts => do
        let places ← place_read
        let subset := places.filter (fun pl => (getColCells metrics "city").contains (Cell.str pl.name))
        let counts := group_size (sjoin_within pts subset)
        let merged := drop_col (merge_left metrics (counts_frame counts) "city" "NAME") "NAME"
        fillna_col merged "tri_facilities" (Cell.intVal 0)
  else .ok metrics

/-- The pipeline of `main` up to (and including) the spatial-join
stage: load emissions, assemble per-city rows, pre-set the
`tri_facilities` default, run the optional join. -/
def run_pipeline (net : String → NetResult) (pm_fb : Option Frame)
    (cmExists : Bool) (cmRaw : Frame) (triExists placeExists : Bool)
    (triCsv : Except String Frame) (place_read : Except String (List Place)) :
    Except String Frame := do
  let cm ← load_cm cmExists cmRaw
  let rows ← build_rows net pm_fb cm
  let metrics := add_tri_default (metrics_frame rows)
  tri_stage metrics triExists placeExists (read_tri triCsv) place_read

/-! ### Basic helper lemmas -/

lemma colIdx_isSome_of_mem {cols : List String} {c : String} (h : c ∈ cols) :
    ∃ i, colIdx cols c = some i := by
  have hs : (List.findIdx? (fun x => (x = c : Bool)) cols).isSome = true := by
    rw [List.findIdx?_isSome]
    exact List.any_eq_true.mpr ⟨c, h, by simp⟩
  cases hx : colIdx cols c with
  | some i => exact ⟨i, rfl⟩
  | none => rw [colIdx] at hx; rw [hx] at hs; simp at hs

lemma colIdx_eq_none_of_not_mem {cols : List String} {c : String} (h : c ∉ cols) :
    colIdx cols c = none := by
  rw [colIdx, List.findIdx?_eq_none_iff]
  intro x hx
  simp only [decide_eq_false_iff_not]
  rintro rfl
  exact h hx

lemma filterMap_cellToQ {α : Type} (f : α → Cell) :
    ∀ (l : List α) (vs : List ℚ), l.map f = vs.map Cell.num →
      l.filterMap (fun r => cellToQ (f r)) = vs := by
  intro l
  induction l with
  | nil => intro vs h; cases vs <;> simp_all
  | cons a t ih =>
    intro vs h
    cases vs with
    | nil => simp at h
    | cons v vt =>
      simp only [List.map_cons, List.cons.injEq] at h
      rw [List.filterMap_cons, h.1]
      simpa [cellToQ] using ih vt h.2

/-! ### C3: the point-observation fetcher -/

/-- C3: `get_pm25_latest` never raises to its caller: network failure,
timeout, non-success HTTP status, an unparseable body, a malformed
measurement object, and zero qualifying measurements all collapse to
the NaN missing sentinel (`none`), and otherwise the arithmetic mean
of the returned measurement values is returned. -/
theorem get_pm25_latest_never_raises :
    (get_pm25_latest NetResult.fail = none) ∧
    (get_pm25_latest NetResult.timeout = none) ∧
    (∀ r : ApiResponse, 400 ≤ r.status → get_pm25_latest (NetResult.resp r) = none) ∧
    (∀ r : ApiResponse, r.json = none → get_pm25_latest (NetResult.resp r) = none) ∧
    (∀ (r : ApiResponse) (b : ApiBody) (e : String), r.json = some b →
      extract_values b = Except.error e → get_pm25_latest (NetResult.resp r) = none) ∧
    (∀ (r : ApiResponse) (b : ApiBody), r.json = some b →
      extract_values b = Except.ok [] → get_pm25_latest (NetResult.resp r) = none) ∧
    (∀ (r : ApiResponse) (b : ApiBody) (vs : List ℚ), r.status < 400 → r.json = some b →
      extract_values b = Except.ok vs → vs ≠ [] →
      get_pm25_latest (NetResult.resp r) = some (vs.sum / vs.length)) := by
  refine ⟨rfl, rfl, ?_, ?_, ?_, ?_, ?_⟩
  · intro r h
    simp [get_pm25_latest, get_pm25_attempt, raise_for_status, h, Bind.bind, Except.bind]
  · intro r h
    by_cases hs : 400 ≤ r.status
    · simp [get_pm25_latest, get_pm25_attempt, raise_for_status, hs, Bind.bind, Except.bind]
    · simp [get_pm25_latest, get_pm25_attempt, raise_for_status, response_json, hs, h,
        Bind.bind, Except.bind]
  · intro r b e hb he
    by_cases hs : 400 ≤ r.status
    · simp [get_pm25_latest, get_pm25_attempt, raise_for_status, hs, Bind.bind, Except.bind]
    · simp [get_pm25_latest, get_pm25_attempt, raise_for_status, response_json, hs, hb, he,
        Bind.bind, Except.bind]
  · intro r b hb he
    by_cases hs : 400 ≤ r.status
    · simp [get_pm25_latest, get_pm25_attempt, raise_for_status, hs, Bind.bind, Except.bind]
    · simp [get_pm25_latest, get_pm25_attempt, raise_for_status, response_json, hs, hb, he,
        Bind.bind, Except.bind, Pure.pure, Except.pure]
  · intro r b vs hs hb he hne
    have hs' : ¬ 400 ≤ r.status := Nat.not_le.mpr hs
    simp [get_pm25_latest, get_pm25_attempt, raise_for_status, response_json, hs', hb, he,
      Bind.bind, Except.bind, Pure.pure, Except.pure, List.isEmpty_iff, hne]

/-- Demo OpenAQ body with two measurements, 3 and 5. -/
def demo_body : ApiBody :=
  { results := some [{ measurements := some [{ value := some 3 }, { value := some 5 }] }] }

/-- Demo successful response carrying `demo_body`. -/
def demo_resp : ApiResponse := { status := 200, json := some demo_body }

/-- Witness for C3: a successful response with measurements 3 and 5
yields their mean 4, and a 410 response yields the sentinel. -/
theorem get_pm25_latest_never_raises_witness :
    get_pm25_latest (NetResult.resp demo_resp) = some 4 ∧
    get_pm25_latest (NetResult.resp { status := 410, json := some demo_body }) = none := by
  constructor
  · have h := get_pm25_latest_never_raises.2.2.2.2.2.2 demo_resp demo_body [3, 5]
      (by decide) rfl rfl (by decide)
    rw [h]; norm_num
  · exact get_pm25_latest_never_raises.2.2.1 { status := 410, json := some demo_body } (by decide)

/-! ### C4: the fetch / fallback / missing priority chain -/

/-- C4: pm25 resolution follows the fetch-then-fallback-then-missing
chain: a fetched value is never overridden; with a missing fetch and
no fallback table the value stays missing; with a fallback table the
value stays missing when the city has no exact-name-match row, and
becomes the first matching row's stored pm25 value otherwise. -/
theorem resolve_pm25_chain :
    (∀ (v : ℚ) (fb : Option Frame) (city : String),
      resolve_pm25 (some v) fb city = Except.ok (some v)) ∧
    (∀ city : String, resolve_pm25 none none city = Except.ok none) ∧
    (∀ (fb : Frame) (city : String), "city" ∈ fb.cols → fb_matching fb city = [] →
      resolve_pm25 none (some fb) city = Except.ok none) ∧
    (∀ (fb : Frame) (city : String) (r : List Cell) (rest : List (List Cell)) (v : ℚ),
      "city" ∈ fb.cols → "pm25" ∈ fb.cols → fb_matching fb city = r :: rest →
      cellAt fb.cols r "pm25" = Cell.num v →
      resolve_pm25 none (some fb) city = Except.ok (some v)) := by
  refine ⟨?_, fun _ => rfl, ?_, ?_⟩
  · intro v fb city; cases fb <;> rfl
  · intro fb city hc hm
    obtain ⟨i, hi⟩ := colIdx_isSome_of_mem hc
    rw [fb_matching] at hm
    simp only [cellAt, hi, List.getD_eq_getElem?_getD] at hm
    simp [resolve_pm25, fb_lookup, hi, hm, List.getD_eq_getElem?_getD, Bind.bind, Except.bind]
  · intro fb city r rest v hc hp hm hv
    obtain ⟨i, hi⟩ := colIdx_isSome_of_mem hc
    obtain ⟨j, hj⟩ := colIdx_isSome_of_mem hp
    rw [fb_matching] at hm
    simp only [cellAt, hi, List.getD_eq_getElem?_getD] at hm
    simp only [cellAt, hj, List.getD_eq_getElem?_getD] at hv
    simp [resolve_pm25, fb_lookup, hi, hj, hm, hv, cellToQ, List.getD_eq_getElem?_getD,
      Bind.bind, Except.bind]

/-- Fallback table holding Chicago with pm25 = 12.3. -/
def demo_fb : Frame :=
  { cols := ["city", "pm25"], rows := [[Cell.str "Chicago", Cell.num (123 / 10)]] }

/-- Witness for C4: Chicago with a failed fetch takes the stored 12.3,
and a fetched value 7 is not overridden by the table. -/
theorem resolve_pm25_chain_witness :
    resolve_pm25 none (some demo_fb) "Chicago" = Except.ok (some (123 / 10)) ∧
    resolve_pm25 (some 7) (some demo_fb) "Chicago" = Except.ok (some 7) := by
  constructor
  · exact resolve_pm25_chain.2.2.2 demo_fb "Chicago"
      [Cell.str "Chicago", Cell.num (123 / 10)] [] (123 / 10)
      (by decide) (by decide) rfl rfl
  · exact resolve_pm25_chain.1 7 (some demo_fb) "Chicago"

/-! ### C5: the per-city CO2 mean -/

/-- C5: for every city the assembled co2 value is the arithmetic mean
of the emissions of the normalized records matching the city and the
configured analysis year, and the missing sentinel when no records
match. -/
theorem co2_mean_matching_records :
    (∀ (cm : Frame) (city : String) (yr : Int), cm_matching cm city yr = [] →
      co2_mean cm city yr = none) ∧
    (∀ (cm : Frame) (city : String) (yr : Int) (vs : List ℚ),
      (cm_matching cm city yr).map (fun r => cellAt cm.cols r "emissions") = vs.map Cell.num →
      vs ≠ [] → co2_mean cm city yr = some (vs.sum / vs.length)) := by
  constructor
  · intro cm city yr h
    simp [co2_mean, h]
  · intro cm city yr vs hmap hne
    have hvals : (cm_matching cm city yr).filterMap
        (fun r => cellToQ (cellAt cm.cols r "emissions")) = vs :=
      filterMap_cellToQ _ _ _ hmap
    have hnem : ¬ (cm_matching cm city yr).isEmpty = true := by
      intro h
      rw [List.isEmpty_iff] at h
      rw [h] at hmap
      exact hne (by cases vs with
        | nil => rfl
        | cons a t => simp at hmap)
    simp [co2_mean, hnem, hvals, List.isEmpty_iff, hne]

/-- Emissions frame with two matching New York rows, 10 and 20 t/day,
inside the configured year 2024. -/
def demo_cm : Frame :=
  { cols := ["city", "date", "emissions", "year"],
    rows := [[Cell.str "New York", Cell.dateVal ⟨2024, 1, 1⟩, Cell.num 10, Cell.intVal 2024],
             [Cell.str "New York", Cell.dateVal ⟨2024, 2, 1⟩, Cell.num 20, Cell.intVal 2024]] }

/-- Witness for C5: New York with emissions 10 and 20 yields 15, and
the empty canonical frame yields the sentinel. -/
theorem co2_mean_matching_records_witness :
    co2_mean demo_cm "New York" 2024 = some 15 ∧
    co2_mean empty_cm_frame "New York" 2024 = none := by
  constructor
  · have h := co2_mean_matching_records.2 demo_cm "New York" 2024 [10, 20] rfl (by decide)
    rw [h]; norm_num
  · exact co2_mean_matching_records.1 empty_cm_frame "New York" 2024 rfl

/-! ### C1 and C2: the spatial-join stage bug -/

/-- A single pre-assembled metrics row for Chicago. -/
def demo_row : CityRow :=
  { city := "Chicago", latitude := 41, longitude := -87, pm25 := none, co2 := none }

/-- Metrics frame for `demo_row` with the pre-set `tri_facilities`
default already added (state at line 111 of the script). -/
def demo_metrics : Frame := add_tri_default (metrics_frame [demo_row])

/-- A boundary polygon named Chicago containing the demo facility. -/
def demo_place : Place :=
  { name := "Chicago", xmin := -88, xmax := -86, ymin := 40, ymax := 42 }

/-- A facility point strictly inside `demo_place`. -/
def demo_fac : FacPoint := { x := -87, y := 41 }

/-- C1: when both external files are present and both loads succeed,
the merge of the counts frame suffixes the pre-existing
`tri_facilities` column to `tri_facilities_x`/`tri_facilities_y`
(both frames carry that label), so the subsequent
`metrics["tri_facilities"].fillna(0)` raises `KeyError` and the run
never produces a metrics table with the column — the invariant fails
exactly on the successful-join path. -/
theorem tri_facilities_keyerror_on_successful_join :
    tri_stage demo_metrics true true (some [demo_fac]) (Except.ok [demo_place]) =
      Except.error "KeyError: tri_facilities" := by
  rfl

/-- C2: a failure of a sub-step after `_read_tri` is not caught: an
error raised by the boundary-archive read (`gpd.read_file`)
propagates out of the spatial-join stage instead of skipping it. -/
theorem boundary_read_error_propagates :
    tri_stage demo_metrics true true (some [demo_fac]) (Except.error "DriverError") =
      Except.error "DriverError" := by
  rfl

/-! ### C10: fallback table with missing columns -/

/-- A fallback frame that lacks the `pm25` column and whose single row
does not match any configured city. -/
def fb_no_pm25 : Frame :=
  { cols := ["city", "pm"], rows := [[Cell.str "Boston", Cell.num 1]] }

/-- The metric rows produced when every fetch fails and nothing else
supplies data: every pm25 and co2 is the missing sentinel. -/
def all_missing_rows : List CityRow :=
  CITIES.map (fun c =>
    { city := c.1, latitude := c.2.1, longitude := c.2.2, pm25 := none, co2 := none })

/-- C10 counterexample: the fallback file lacks the `pm25` column and
every city's live fetch returns missing, yet the per-city loop
completes without an uncaught error (each city's pm25 simply stays
missing), because `row.iloc[0].pm25` is only evaluated when a
matching fallback row exists. -/
theorem fallback_without_pm25_column_completes :
    fb_no_pm25.cols.contains "pm25" = false ∧
    build_rows (fun _ => NetResult.fail) (some fb_no_pm25) empty_cm_frame =
      Except.ok all_missing_rows := by
  exact ⟨by decide, rfl⟩

/-- C10 amended: a fallback table lacking the `city` column makes the
lookup (and hence the per-city loop) raise `AttributeError` for any
city whose fetch returned missing; one lacking only `pm25` raises
exactly when the missing-fetch city has a matching fallback row, and
otherwise the lookup completes with the value left missing. -/
theorem fb_lookup_missing_columns (fb : Frame) (city : String) :
    ("city" ∉ fb.cols →
      fb_lookup fb city = Except.error "AttributeError: city" ∧
      resolve_pm25 none (some fb) city = Except.error "AttributeError: city") ∧
    ("city" ∈ fb.cols → "pm25" ∉ fb.cols → fb_matching fb city ≠ [] →
      fb_lookup fb city = Except.error "AttributeError: pm25") ∧
    ("city" ∈ fb.cols → fb_matching fb city = [] →
      fb_lookup fb city = Except.ok none) := by
  refine ⟨?_, ?_, ?_⟩
  · intro h
    have hn : colIdx fb.cols "city" = none := colIdx_eq_none_of_not_mem h
    constructor
    · simp [fb_lookup, hn]
    · simp [resolve_pm25, fb_lookup, hn, Bind.bind, Except.bind]
  · intro hc hp hne
    obtain ⟨i, hi⟩ := colIdx_isSome_of_mem hc
    have hn : colIdx fb.cols "pm25" = none := colIdx_eq_none_of_not_mem hp
    rw [fb_matching] at hne
    simp only [cellAt, hi, List.getD_eq_getElem?_getD] at hne
    rw [fb_lookup, hi]
    simp only [List.getD_eq_getElem?_getD]
    cases hm : List.filter (fun r => decide (r[i]?.getD Cell.na = Cell.str city)) fb.rows with
    | nil => exact absurd hm hne
    | cons r rest => rw [hn]
  · intro hc hm
    obtain ⟨i, hi⟩ := colIdx_isSome_of_mem hc
    rw [fb_matching] at hm
    simp only [cellAt, hi, List.getD_eq_getElem?_getD] at hm
    rw [fb_lookup, hi]
    simp only [List.getD_eq_getElem?_getD]
    rw [hm]

/-- A fallback frame lacking `city` altogether. -/
def fb_no_city : Frame := { cols := ["pm25"], rows := [[Cell.num 2]] }

/-- A fallback frame lacking `pm25` but holding a row matching
Chicago. -/
def fb_no_pm25_match : Frame :=
  { cols := ["city", "pm"], rows := [[Cell.str "Chicago", Cell.num 1]] }

/-- Witness for the amended C10: both defective fallback shapes raise
on lookup for a missing-fetch city. -/
theorem fb_lookup_missing_columns_witness :
    fb_lookup fb_no_city "Chicago" = Except.error "AttributeError: city" ∧
    fb_lookup fb_no_pm25_match "Chicago" = Except.error "AttributeError: pm25" := by
  constructor
  · exact ((fb_lookup_missing_columns fb_no_city "Chicago").1 (by decide)).1
  · exact (fb_lookup_missing_columns fb_no_pm25_match "Chicago").2.1
      (by decide) (by decide) (by decide)

/-! ### C7: spatial-join counting -/

lemma find_pair_of_mem {l : List String} {n : String} (h : n ∈ l) (g : String → Nat) :
    (l.map (fun m => (m, g m))).find? (fun c => (c.1 = n : Bool)) = some (n, g n) := by
  induction l with
  | nil => cases h
  | cons a t ih =>
    by_cases ha : a = n
    · subst ha; simp [List.find?]
    · have ht : n ∈ t := by
        rcases List.mem_cons.mp h with h1 | h2
        · exact absurd h1.symm ha
        · exact h2
      simpa [List.find?, ha] using ih ht

lemma lookup_group_size (ns : List String) (n : String) :
    lookup_count (group_size ns) n = ns.count n := by
  by_cases h : n ∈ ns
  · have hd : n ∈ ns.dedup := List.mem_dedup.mpr h
    rw [lookup_count, group_size, find_pair_of_mem hd]
  · have hn : (ns.dedup.map (fun m => (m, ns.count m))).find?
        (fun c => (c.1 = n : Bool)) = none := by
      rw [List.find?_eq_none]
      intro x hx
      obtain ⟨m, hm, rfl⟩ := List.mem_map.mp hx
      simp only [decide_eq_true_eq]
      rintro rfl
      exact h (List.mem_dedup.mp hm)
    rw [lookup_count, group_size, hn, List.count_eq_zero.mpr h]

lemma filter_eq_singleton_of_countP_one {α : Type} {q : α → Bool} {l : List α} {a : α}
    (h1 : l.countP q = 1) (h2 : a ∈ l) (h3 : q a = true) : l.filter q = [a] := by
  rw [List.countP_eq_length_filter] at h1
  have ha : a ∈ l.filter q := List.mem_filter.mpr ⟨h2, h3⟩
  cases hf : l.filter q with
  | nil => rw [hf] at ha; cases ha
  | cons x t =>
    cases t with
    | nil =>
      rw [hf] at ha
      rw [List.mem_singleton] at ha
      subst ha; rfl
    | cons y t2 => rw [hf] at h1; simp at h1

/-- C7: a facility point strictly inside exactly one retained polygon
increments that polygon's facility count by exactly 1; a point inside
none of the retained polygons changes no count; and a point on a
polygon's boundary edge is not `within` it (the predicate is the
strict interior), so it is excluded from the join. -/
theorem sjoin_within_counting (pts : List FacPoint) (places : List Place)
    (p : FacPoint) (pl : Place) (hmem : pl ∈ places) (hin : within p pl = true)
    (huniq : places.countP (fun q => within p q) = 1) :
    (lookup_count (group_size (sjoin_within (p :: pts) places)) pl.name =
      lookup_count (group_size (sjoin_within pts places)) pl.name + 1) ∧
    (∀ (q : FacPoint) (n : String), (∀ pl2 ∈ places, within q pl2 = false) →
      lookup_count (group_size (sjoin_within (q :: pts) places)) n =
        lookup_count (group_size (sjoin_within pts places)) n) ∧
    (∀ (q : FacPoint) (pl2 : Place), on_boundary q pl2 = true → within q pl2 = false) := by
  refine ⟨?_, ?_, ?_⟩
  · have hfil : places.filter (fun q => within p q) = [pl] :=
      filter_eq_singleton_of_countP_one huniq hmem hin
    rw [sjoin_within, List.flatMap_cons, hfil, ← sjoin_within]
    rw [lookup_group_size, lookup_group_size, List.map_singleton, List.singleton_append,
      List.count_cons_self]
  · intro q n hout
    have hfil : places.filter (fun r => within q r) = [] := by
      rw [List.filter_eq_nil_iff]
      intro x hx
      simp [hout x hx]
    rw [sjoin_within, List.flatMap_cons, hfil, ← sjoin_within, List.map_nil,
      List.nil_append]
  · intro q pl2 hb
    by_contra hne
    have hw : within q pl2 = true := by
      revert hne; cases within q pl2 <;> simp
    simp only [within, Bool.and_eq_true, decide_eq_true_eq] at hw
    simp only [on_boundary, Bool.and_eq_true, Bool.or_eq_true, decide_eq_true_eq] at hb
    obtain ⟨⟨⟨hx1, hx2⟩, hy1⟩, hy2⟩ := hw
    obtain ⟨⟨⟨⟨hc1, hc2⟩, hc3⟩, hc4⟩, hedge⟩ := hb
    rcases hedge with ((h | h) | h) | h <;> linarith

/-- A retained boundary polygon for the witness, the square [0,2]². -/
def wit_place : Place := { name := "A", xmin := 0, xmax := 2, ymin := 0, ymax := 2 }

/-- Witness for C7: the interior point (1,1) increments the count of
polygon A by 1, the outside point (5,5) changes it by nothing, and the
edge point (0,1) is not `within` the polygon. -/
theorem sjoin_within_counting_witness :
    (lookup_count (group_size (sjoin_within [{ x := 1, y := 1 }] [wit_place])) "A" =
      lookup_count (group_size (sjoin_within [] [wit_place])) "A" + 1) ∧
    (lookup_count (group_size (sjoin_within [{ x := 5, y := 5 }] [wit_place])) "A" =
      lookup_count (group_size (sjoin_within [] [wit_place])) "A") ∧
    within { x := 0, y := 1 } wit_place = false := by
  have h := sjoin_within_counting [] [wit_place] { x := 1, y := 1 } wit_place
    (by decide) (by decide) (by decide)
  exact ⟨h.1, h.2.1 { x := 5, y := 5 } "A" (by decide),
    h.2.2 { x := 0, y := 1 } wit_place (by decide)⟩

/-! ### C9: missing emissions column -/

lemma project_error_of_not_mem (f : Frame) (names : List String) (n : String)
    (hn : n ∈ names) (hf : n ∉ f.cols) :
    project f names = Except.error "KeyError: not in index" := by
  rw [project, if_neg]
  simp only [List.all_eq_true, not_forall]
  exact ⟨n, hn, by simpa using hf⟩

lemma emissions_pred_true :
    (str_starts (str_lower "emissions") "emission" || str_lower "emissions" = "value" ||
      str_lower "emissions" = "co2") = true := by
  decide

lemma emissions_not_mem_of_find_none {cols : List String} (h : find_emi_col cols = none) :
    "emissions" ∉ cols := by
  intro hm
  rw [find_emi_col, List.find?_eq_none] at h
  exact h _ hm (by simpa using emissions_pred_true)

lemma set_col_cols_of_found {f : Frame} {c : String} {i : Nat} (h : colIdx f.cols c = some i)
    (vals : List Cell) : (set_col f c vals).cols = f.cols := by
  rw [set_col, h]

lemma set_col_cols_sub (f : Frame) (c : String) (vals : List Cell) :
    (set_col f c vals).cols = f.cols ∨ (set_col f c vals).cols = f.cols ++ [c] := by
  rw [set_col]
  cases colIdx f.cols c
  · right; rfl
  · left; rfl

lemma parse_dates_cols_of_found {f : Frame} {i : Nat} (h : colIdx f.cols "date" = some i) :
    (parse_dates f).cols = f.cols :=
  set_col_cols_of_found h _

lemma dropna_subset_cols (f : Frame) (c : String) : (dropna_subset f c).cols = f.cols := rfl

lemma add_year_cols_sub (f : Frame) :
    (add_year f).cols = f.cols ∨ (add_year f).cols = f.cols ++ ["year"] := by
  rw [add_year]
  exact set_col_cols_sub f "year" _

/-- C9 amended: when no column matches the emissions heuristic, the
normalizer still fails fatally before returning a table, but the
failure is at the final canonical-column projection (KeyError,
`emissions` not in index); the rename against the missing key is a
silent no-op (pandas `rename` defaults to `errors="ignore"`). -/
theorem standardise_no_emi_col_fails_at_projection (raw : Frame)
    (hfind : find_emi_col raw.cols = none) (hdate : "date" ∈ raw.cols) :
    rename_columns raw (find_emi_col raw.cols) "emissions" = raw ∧
    standardise_carbon_monitor raw = Except.error "KeyError: not in index" := by
  constructor
  · rw [hfind]
    rfl
  · obtain ⟨i, hi⟩ := colIdx_isSome_of_mem hdate
    rw [standardise_carbon_monitor, hfind]
    simp only [rename_columns]
    rw [hi]
    have hne : "emissions" ∉ raw.cols := emissions_not_mem_of_find_none hfind
    apply project_error_of_not_mem _ _ "emissions" (by decide)
    intro hmem
    have hc1 : (parse_dates raw).cols = raw.cols := parse_dates_cols_of_found hi
    have hc2 : (dropna_subset (parse_dates raw) "date").cols = raw.cols := hc1
    rcases add_year_cols_sub (dropna_subset (parse_dates raw) "date") with h | h <;>
      rw [h, hc2] at hmem
    · exact hne hmem
    · rcases List.mem_append.mp hmem with h2 | h2
      · exact hne h2
      · rw [List.mem_singleton] at h2
        exact absurd h2 (by decide)

/-- A raw frame with no emissions-like column. -/
def raw_no_emi : Frame :=
  { cols := ["city", "date", "foo"],
    rows := [[Cell.str "NY", Cell.dateVal ⟨2024, 1, 1⟩, Cell.num 1]] }

/-- C9 counterexample: on a concrete frame with no emissions-like
column, the rename step completes unchanged (it cannot fail: pandas
ignores missing mapper keys) and the fatal error arises only at the
final projection, refuting "specifically because the column-rename
against the missing key fails". -/
theorem rename_missing_key_does_not_fail :
    rename_columns raw_no_emi (find_emi_col raw_no_emi.cols) "emissions" = raw_no_emi ∧
    standardise_carbon_monitor raw_no_emi = Except.error "KeyError: not in index" :=
  ⟨rfl, rfl⟩

/-- A second raw frame without an emissions-like column. -/
def raw_no_emi2 : Frame := { cols := ["city", "date"], rows := [] }

/-- Witness for the amended C9. -/
theorem standardise_no_emi_col_fails_at_projection_witness :
    rename_columns raw_no_emi2 (find_emi_col raw_no_emi2.cols) "emissions" = raw_no_emi2 ∧
    standardise_carbon_monitor raw_no_emi2 = Except.error "KeyError: not in index" :=
  standardise_no_emi_col_fails_at_projection raw_no_emi2 (by decide) (by decide)

/-! ### C8: the source normalizer -/

lemma zip_map_set (i : Nat) (l : List (List Cell)) (f : List Cell → Cell) :
    (l.zip (l.map f)).map (fun p => p.1.set i p.2) = l.map (fun r => r.set i (f r)) := by
  induction l with
  | nil => rfl
  | cons x t ih => simp only [List.map_cons, List.zip_cons_cons, ih]

lemma zip_map_append (l : List (List Cell)) (f : List Cell → Cell) :
    (l.zip (l.map f)).map (fun p => p.1 ++ [p.2]) = l.map (fun r => r ++ [f r]) := by
  induction l with
  | nil => rfl
  | cons x t ih => simp only [List.map_cons, List.zip_cons_cons, ih]

lemma findIdx?_congr_mem {a : Type} (p q : a → Bool) :
    ∀ (l : List a) (i : Nat), (∀ c ∈ l, p c = q c) →
      List.findIdx? p l i = List.findIdx? q l i := by
  intro l
  induction l with
  | nil => intro i h; rfl
  | cons x t ih =>
    intro i h
    rw [List.findIdx?_cons, List.findIdx?_cons, h x (List.mem_cons_self x t),
      ih (i + 1) (fun c hc => h c (List.mem_cons_of_mem x hc))]

lemma colIdx_spec {cols : List String} {c : String} {i : Nat} (h : colIdx cols c = some i) :
    i < cols.length ∧ cols.getD i "" = c := by
  rw [colIdx, List.findIdx?_eq_some_iff_findIdx_eq] at h
  obtain ⟨hlt, hidx⟩ := h
  refine ⟨hlt, ?_⟩
  have hw : List.findIdx (fun x => (x = c : Bool)) cols < cols.length := by rw [hidx]; exact hlt
  have hp := @List.findIdx_getElem _ (fun x => (x = c : Bool)) cols hw
  simp only [hidx] at hp
  simp only [decide_eq_true_eq] at hp
  rw [List.getD_eq_getElem?_getD, List.getElem?_eq_getElem hlt]
  simpa using hp

lemma colIdx_append_left {l1 : List String} (l2 : List String) {c : String} {i : Nat}
    (h : colIdx l1 c = some i) : colIdx (l1 ++ l2) c = some i := by
  rw [colIdx, List.findIdx?_append]
  rw [colIdx] at h
  rw [h]
  rfl

lemma colIdx_append_self {l1 : List String} {c : String}
    (h : colIdx l1 c = none) : colIdx (l1 ++ [c]) c = some l1.length := by
  rw [colIdx, List.findIdx?_append]
  rw [colIdx] at h
  rw [h]
  simp [List.findIdx?_cons]

lemma colIdx_map_rho {l : List String} {e t : String} (h1 : e ≠ t) (h2 : "emissions" ≠ t) :
    colIdx (l.map (fun c => if c = e then "emissions" else c)) t = colIdx l t := by
  rw [colIdx, colIdx, List.findIdx?_map]
  apply findIdx?_congr_mem
  intro c hc
  by_cases hce : c = e
  · subst hce; simp [Function.comp, h1, h2]
  · simp [Function.comp, hce]

lemma colIdx_map_rho_emissions {l : List String} {e : String}
    (hemi : e = "emissions" ∨ "emissions" ∉ l) :
    colIdx (l.map (fun c => if c = e then "emissions" else c)) "emissions" = colIdx l e := by
  rw [colIdx, colIdx, List.findIdx?_map]
  apply findIdx?_congr_mem
  intro c hc
  by_cases hce : c = e
  · subst hce; simp [Function.comp]
  · rcases hemi with rfl | hnm
    · simp [Function.comp, hce]
    · have hcne : c ≠ "emissions" := fun h => hnm (h ▸ hc)
      simp [Function.comp, hce, hcne]

lemma getD_set_eq {l : List Cell} {i : Nat} (h : i < l.length) (v d : Cell) :
    (l.set i v).getD i d = v := by
  rw [List.getD_eq_getElem?_getD, List.getElem?_set_eq_of_lt v h]
  rfl

lemma getD_set_ne {l : List Cell} {i j : Nat} (h : i ≠ j) (v d : Cell) :
    (l.set i v).getD j d = l.getD j d := by
  rw [List.getD_eq_getElem?_getD, List.getD_eq_getElem?_getD, List.getElem?_set_ne h]

lemma getD_append_left {l l2 : List Cell} {i : Nat} (h : i < l.length) (d : Cell) :
    (l ++ l2).getD i d = l.getD i d := by
  rw [List.getD_eq_getElem?_getD, List.getD_eq_getElem?_getD, List.getElem?_append, if_pos h]

lemma getD_append_length {l : List Cell} (v d : Cell) :
    (l ++ [v]).getD l.length d = v := by
  rw [List.getD_eq_getElem?_getD, List.getElem?_append_right (le_refl _)]
  simp

lemma parse_dates_eq {l : List String} {i : Nat} (h : colIdx l "date" = some i)
    (rows : List (List Cell)) :
    parse_dates (Frame.mk l rows) =
      Frame.mk l (rows.map (fun r => r.set i (parse_date_cell (r.getD i Cell.na)))) := by
  rw [parse_dates]
  simp only [set_col, h]
  rw [zip_map_set]
  congr 1
  apply List.map_congr_left
  intro r hr
  simp [cellAt, h]

lemma dropna_eq {l : List String} {i : Nat} (h : colIdx l "date" = some i)
    (rows : List (List Cell)) :
    dropna_subset (Frame.mk l rows) "date" =
      Frame.mk l (rows.filter (fun r => !(r.getD i Cell.na = Cell.na : Bool))) := by
  rw [dropna_subset]
  congr 1
  apply List.filter_congr
  intro r hr
  simp [cellAt, h]

lemma add_year_eq {l : List String} {i : Nat} (hd : colIdx l "date" = some i)
    (hy : colIdx l "year" = none) (rows : List (List Cell)) :
    add_year (Frame.mk l rows) =
      Frame.mk (l ++ ["year"])
        (rows.map (fun r => r ++ [match r.getD i Cell.na with
          | Cell.dateVal d => Cell.intVal d.year | _ => Cell.na])) := by
  rw [add_year]
  simp only [set_col, hy]
  rw [zip_map_append]
  congr 1
  apply List.map_congr_left
  intro r hr
  have : cellAt l r "date" = r.getD i Cell.na := by simp [cellAt, hd]
  rw [this]

lemma project_eq {l : List String} (names : List String)
    (h : ∀ n ∈ names, n ∈ l) (rows : List (List Cell)) :
    project (Frame.mk l rows) names =
      Except.ok (Frame.mk names (rows.map (fun r => names.map (fun n => cellAt l r n)))) := by
  rw [project, if_pos]
  rw [List.all_eq_true]
  intro n hn
  simpa using h n hn

lemma rows_pipeline (L iD iC iE : Nat)
    (hDC : iD ≠ iC) (hDE : iD ≠ iE) (hDL : iD < L) (hCL : iC < L) (hEL : iE < L) :
    ∀ rows : List (List Cell), (∀ r ∈ rows, r.length = L) →
      (((rows.map (fun r => r.set iD (parse_date_cell (r.getD iD Cell.na)))).filter
          (fun r => !(r.getD iD Cell.na = Cell.na : Bool))).map
        (fun r => r ++ [match r.getD iD Cell.na with
                        | Cell.dateVal d => Cell.intVal d.year
                        | _ => Cell.na])).map
        (fun r => [r.getD iC Cell.na, r.getD iD Cell.na, r.getD iE Cell.na, r.getD L Cell.na])
      = rows.filterMap (fun r => (pd_to_datetime (r.getD iD Cell.na)).map (fun d =>
          [r.getD iC Cell.na, Cell.dateVal d, r.getD iE Cell.na, Cell.intVal d.year])) := by
  intro rows
  induction rows with
  | nil => intro _; rfl
  | cons r t ih =>
    intro hwf
    have hr : r.length = L := hwf r (List.mem_cons_self r t)
    have hwt : ∀ x ∈ t, x.length = L := fun x hx => hwf x (List.mem_cons_of_mem r hx)
    have hDr : iD < r.length := by rw [hr]; exact hDL
    simp only [List.map_cons, List.filterMap_cons, List.filter_cons]
    rw [getD_set_eq hDr]
    cases hpd : pd_to_datetime (r.getD iD Cell.na) with
    | none =>
      have hna : parse_date_cell (r.getD iD Cell.na) = Cell.na := by
        unfold parse_date_cell
        rw [hpd]
      rw [hna]
      have hcf : (!(Cell.na = Cell.na : Bool)) = false := by simp
      rw [hcf]
      simp only [Bool.false_eq_true, if_false]
      exact ih hwt
    | some d =>
      have hdv : parse_date_cell (r.getD iD Cell.na) = Cell.dateVal d := by
        unfold parse_date_cell
        rw [hpd]
      rw [hdv]
      have hct : (!(Cell.dateVal d = Cell.na : Bool)) = true := by simp
      rw [hct]
      simp only [if_true]
      rw [List.map_cons, List.map_cons, ih hwt]
      simp only [Option.map_some']
      congr 1
      have hlen : (r.set iD (Cell.dateVal d)).length = L := by
        rw [List.length_set, hr]
      have hyc : (r.set iD (Cell.dateVal d)).getD iD Cell.na = Cell.dateVal d :=
        getD_set_eq hDr _ _
      rw [hyc]
      rw [getD_append_left (show iC < (r.set iD (Cell.dateVal d)).length by
        rw [hlen]; exact hCL)]
      rw [getD_append_left (show iD < (r.set iD (Cell.dateVal d)).length by
        rw [hlen]; exact hDL)]
      rw [getD_append_left (show iE < (r.set iD (Cell.dateVal d)).length by
        rw [hlen]; exact hEL)]
      rw [getD_set_ne hDC, getD_set_ne hDE, hyc]
      rw [show L = (r.set iD (Cell.dateVal d)).length from hlen.symm]
      rw [getD_append_length]

lemma mem_of_colIdx_some {cols : List String} {c : String} {i : Nat}
    (h : colIdx cols c = some i) : c ∈ cols := by
  obtain ⟨hlt, hg⟩ := colIdx_spec h
  rw [List.getD_eq_getElem?_getD, List.getElem?_eq_getElem hlt] at hg
  simp only [Option.getD_some] at hg
  exact hg ▸ List.getElem_mem hlt

/-- C8: the source normalizer silently discards rows whose date fails
to parse, derives `year` as the integer year component of the parsed
date, and returns a frame whose columns are exactly
city/date/emissions/year; when the source file is absent it is
skipped and the empty canonical frame is used downstream.  (Stated
for a located emissions column that does not shadow an existing
`emissions` or `year` label, on a rectangular frame.) -/
theorem standardise_canonical_schema (raw : Frame) (e : String)
    (hfind : find_emi_col raw.cols = some e)
    (hcity : "city" ∈ raw.cols) (hdate : "date" ∈ raw.cols)
    (hyear : "year" ∉ raw.cols)
    (hemi : e = "emissions" ∨ "emissions" ∉ raw.cols)
    (hwf : ∀ r ∈ raw.rows, r.length = raw.cols.length) :
    load_cm false raw = Except.ok empty_cm_frame ∧
    standardise_carbon_monitor raw = Except.ok
      (Frame.mk ["city", "date", "emissions", "year"]
        (raw.rows.filterMap (fun r =>
          (pd_to_datetime (cellAt raw.cols r "date")).map (fun d =>
            [cellAt raw.cols r "city", Cell.dateVal d, cellAt raw.cols r e,
             Cell.intVal d.year])))) := by
  refine ⟨rfl, ?_⟩
  obtain ⟨cols, rows⟩ := raw
  simp only at hfind hcity hdate hyear hemi hwf ⊢
  have heP := List.find?_some hfind
  have he_mem := List.mem_of_find?_eq_some hfind
  have heD : e ≠ "date" := by rintro rfl; revert heP; decide
  have heC : e ≠ "city" := by rintro rfl; revert heP; decide
  have heY : e ≠ "year" := by rintro rfl; revert heP; decide
  obtain ⟨iD, hiD⟩ := colIdx_isSome_of_mem hdate
  obtain ⟨iC, hiC⟩ := colIdx_isSome_of_mem hcity
  obtain ⟨iE, hiE⟩ := colIdx_isSome_of_mem he_mem
  have hiD1 : colIdx (cols.map (fun c => if c = e then "emissions" else c)) "date" = some iD := by
    rw [colIdx_map_rho heD (by decide)]; exact hiD
  have hiC1 : colIdx (cols.map (fun c => if c = e then "emissions" else c)) "city" = some iC := by
    rw [colIdx_map_rho heC (by decide)]; exact hiC
  have hiE1 : colIdx (cols.map (fun c => if c = e then "emissions" else c)) "emissions" = some iE := by
    rw [colIdx_map_rho_emissions hemi]; exact hiE
  have hYn : colIdx (cols.map (fun c => if c = e then "emissions" else c)) "year" = none := by
    rw [colIdx_map_rho heY (by decide)]
    exact colIdx_eq_none_of_not_mem hyear
  obtain ⟨hDlt, hDg⟩ := colIdx_spec hiD
  obtain ⟨hClt, hCg⟩ := colIdx_spec hiC
  obtain ⟨hElt, hEg⟩ := colIdx_spec hiE
  have hDC : iD ≠ iC := by
    rintro rfl; rw [hDg] at hCg; exact absurd hCg (by decide)
  have hDE : iD ≠ iE := by
    rintro rfl; rw [hDg] at hEg; exact heD hEg.symm
  have hY2 : colIdx ((cols.map (fun c => if c = e then "emissions" else c)) ++ ["year"])
      "year" = some cols.length := by
    rw [colIdx_append_self hYn, List.length_map]
  unfold standardise_carbon_monitor
  dsimp only
  rw [hfind]
  have hren : rename_columns (Frame.mk cols rows) (some e) "emissions" =
      Frame.mk (cols.map (fun c => if c = e then "emissions" else c)) rows := rfl
  rw [hren]
  dsimp only
  rw [hiD1]
  rw [parse_dates_eq hiD1, dropna_eq hiD1, add_year_eq hiD1 hYn,
    project_eq _ (by
      intro n hn
      fin_cases hn
      · exact List.mem_append_left _ (mem_of_colIdx_some hiC1)
      · exact List.mem_append_left _ (mem_of_colIdx_some hiD1)
      · exact List.mem_append_left _ (mem_of_colIdx_some hiE1)
      · exact List.mem_append_right _ (List.mem_singleton_self _)) _]
  have hC2 := colIdx_append_left ["year"] hiC1
  have hD2 := colIdx_append_left ["year"] hiD1
  have hE2 := colIdx_append_left ["year"] hiE1
  simp only [List.map_cons, List.map_nil]
  simp only [cellAt, hC2, hD2, hE2, hY2, hiD, hiC, hiE]
  rw [rows_pipeline cols.length iD iC iE hDC hDE hDlt hClt hElt rows hwf]

/-- A raw Carbon Monitor frame: a `value` emissions column, one good
date row and one unparseable date row. -/
def raw_cm_demo : Frame :=
  { cols := ["city", "date", "value"],
    rows := [[Cell.str "NY", Cell.dateVal ⟨2024, 1, 2⟩, Cell.num 10],
             [Cell.str "NY", Cell.str "not-a-date", Cell.num 99]] }

/-- Witness for C8: the bad-date row is dropped, `year` is 2024, the
columns are canonical, and the absent-file branch yields the empty
canonical frame. -/
theorem standardise_canonical_schema_witness :
    load_cm false raw_cm_demo = Except.ok empty_cm_frame ∧
    standardise_carbon_monitor raw_cm_demo = Except.ok
      (Frame.mk ["city", "date", "emissions", "year"]
        [[Cell.str "NY", Cell.dateVal ⟨2024, 1, 2⟩, Cell.num 10, Cell.intVal 2024]]) := by
  have h := standardise_canonical_schema raw_cm_demo "value" (by decide) (by decide) (by decide)
    (by decide) (Or.inr (by decide)) (by decide)
  refine ⟨h.1, ?_⟩
  rw [h.2]
  rfl

/-! ### C6: one row per configured city, in order -/

lemma build_city_row_city {net : String → NetResult} {pm_fb : Option Frame} {cm : Frame}
    {c : String × ℚ × ℚ} {r : CityRow} (h : build_city_row net pm_fb cm c = Except.ok r) :
    r.city = c.1 := by
  rw [build_city_row] at h
  cases hp : resolve_pm25 (get_pm25_latest (net c.1)) pm_fb c.1 with
  | error e => rw [hp] at h; simp [Bind.bind, Except.bind] at h
  | ok v =>
    rw [hp] at h
    simp only [Bind.bind, Except.bind, Except.ok.injEq] at h
    rw [← h]

lemma mapM_rows_cities (net : String → NetResult) (pm_fb : Option Frame) (cm : Frame) :
    ∀ (cl : List (String × ℚ × ℚ)) (rows : List CityRow),
      cl.mapM (build_city_row net pm_fb cm) = Except.ok rows →
      rows.map (fun r => r.city) = cl.map (fun c => c.1) := by
  intro cl
  induction cl with
  | nil =>
    intro rows h
    simp only [List.mapM_nil, Pure.pure, Except.pure, Except.ok.injEq] at h
    rw [← h]
    rfl
  | cons a t ih =>
    intro rows h
    rw [List.mapM_cons] at h
    cases hb : build_city_row net pm_fb cm a with
    | error e => rw [hb] at h; simp [Bind.bind, Except.bind] at h
    | ok r =>
      rw [hb] at h
      cases ht : List.mapM (build_city_row net pm_fb cm) t with
      | error e => rw [ht] at h; simp [Bind.bind, Except.bind] at h
      | ok rest =>
        rw [ht] at h
        simp only [Bind.bind, Except.bind, Pure.pure, Except.pure, Except.ok.injEq] at h
        rw [← h]
        simp only [List.map_cons]
        rw [build_city_row_city hb, ih rest ht]

lemma add_tri_default_rows (rows : List CityRow) :
    (add_tri_default (metrics_frame rows)).rows =
      rows.map (fun r => [Cell.str r.city, Cell.num r.latitude, Cell.num r.longitude,
        optQCell r.pm25, optQCell r.co2, Cell.intVal 0]) := by
  show ((rows.map (fun r => [Cell.str r.city, Cell.num r.latitude, Cell.num r.longitude,
      optQCell r.pm25, optQCell r.co2])).zip ((rows.map (fun r => [Cell.str r.city,
      Cell.num r.latitude, Cell.num r.longitude, optQCell r.pm25, optQCell r.co2])).map
      (fun _ => Cell.intVal 0))).map (fun p => p.1 ++ [p.2]) = _
  rw [zip_map_append, List.map_map]
  rfl

lemma getColCells_city (rows : List CityRow) :
    getColCells (add_tri_default (metrics_frame rows)) "city" =
      rows.map (fun r => Cell.str r.city) := by
  rw [getColCells, add_tri_default_rows, List.map_map]
  rfl

lemma tri_merge_keyerror (rows : List CityRow) (counts : List (String × Nat)) :
    fillna_col (drop_col (merge_left (add_tri_default (metrics_frame rows))
      (counts_frame counts) "city" "NAME") "NAME") "tri_facilities" (Cell.intVal 0) =
    Except.error "KeyError: tri_facilities" := by
  rfl

/-- C6: every run of the pipeline that produces a metrics table
produces exactly one row per configured city, with the city column in
the configured input order (the only successful paths are those where
the spatial-join stage was skipped; its merge path always raises, cf.
the C1 bug). -/
theorem pipeline_one_row_per_city (net : String → NetResult) (pm_fb : Option Frame)
    (cmExists : Bool) (cmRaw : Frame) (triExists placeExists : Bool)
    (triCsv : Except String Frame) (place_read : Except String (List Place)) (f : Frame)
    (h : run_pipeline net pm_fb cmExists cmRaw triExists placeExists triCsv place_read =
      Except.ok f) :
    getColCells f "city" = CITIES.map (fun c => Cell.str c.1) ∧
    f.rows.length = CITIES.length := by
  rw [run_pipeline] at h
  cases hcm : load_cm cmExists cmRaw with
  | error e => rw [hcm] at h; simp [Bind.bind, Except.bind] at h
  | ok cm =>
    rw [hcm] at h
    simp only [Bind.bind, Except.bind] at h
    cases hbr : build_rows net pm_fb cm with
    | error e => rw [hbr] at h; simp at h
    | ok rows =>
      rw [hbr] at h
      dsimp only at h
      have hcities : rows.map (fun r => r.city) = CITIES.map (fun c => c.1) :=
        mapM_rows_cities net pm_fb cm CITIES rows hbr
      have hgoal : getColCells (add_tri_default (metrics_frame rows)) "city" =
          CITIES.map (fun c => Cell.str c.1) := by
        rw [getColCells_city]
        have h2 := congrArg (List.map Cell.str) hcities
        simp only [List.map_map, Function.comp] at h2
        exact h2
      have hlen : (add_tri_default (metrics_frame rows)).rows.length = CITIES.length := by
        rw [add_tri_default_rows, List.length_map]
        have h3 := congrArg List.length hcities
        simpa using h3
      rw [tri_stage.eq_def] at h
      by_cases hex : (triExists && placeExists) = true
      · rw [if_pos hex] at h
        cases hrt : read_tri triCsv with
        | none =>
          rw [hrt] at h
          rw [Except.ok.injEq] at h
          rw [← h]
          exact ⟨hgoal, hlen⟩
        | some pts =>
          rw [hrt] at h
          cases hpl : place_read with
          | error e => rw [hpl] at h; simp [Bind.bind, Except.bind] at h
          | ok places =>
            rw [hpl] at h
            simp only [Bind.bind, Except.bind] at h
            rw [tri_merge_keyerror] at h
            exact absurd h (by simp)
      · rw [if_neg hex] at h
        rw [Except.ok.injEq] at h
        rw [← h]
        exact ⟨hgoal, hlen⟩

/-- Witness for C6: a run with every optional input absent and every
fetch failing yields the 7 configured cities in input order. -/
theorem pipeline_one_row_per_city_witness :
    getColCells (add_tri_default (metrics_frame all_missing_rows)) "city" =
      CITIES.map (fun c => Cell.str c.1) ∧
    (add_tri_default (metrics_frame all_missing_rows)).rows.length = CITIES.length :=
  pipeline_one_row_per_city (fun _ => NetResult.fail) none false empty_cm_frame false false
    (Except.error "missing") (Except.error "missing") _ rfl

end AirQuality
